import Mathlib

/-!
# libpseudofred network layer: `network.c` / `network.h`

A shallow embedding of the socket wrapper in `software/lib/network/c/main/network.c`.

* The APR runtime is external to the repository. It is modelled as an arbitrary deterministic
  responder `Runtime.respond`: given the history of runtime calls made so far and the next call,
  it yields the status and the out-parameters of that call. Every runtime call is appended to
  `State.trace` together with its response, so "which runtime calls were made" is observable.
* `struct net_socket` objects live in caller-allocated storage; `State.mem` maps an address to
  the object stored there, and the C functions take addresses, so aliasing is representable.
* `printf` output is collected in `State.out`. `apr_strerror`, which only formats a status
  into text for `print_apr_error`, is a function of the status and is not recorded in the
  trace.
* `size_t` lengths are natural numbers: the wrapper only compares them, it does no
  arithmetic on them. The `int` port is narrowed to the 16-bit `apr_port_t` at the call of
  `apr_sockaddr_info_get` (`to_apr_port_t`).
-/

namespace Network

/-! ## Runtime (APR) interface -/

/-- Type `apr_status_t` is a C `int`. -/
abbrev apr_status_t := Int

/-- Status `APR_SUCCESS` of `apr_errno.h`. -/
def APR_SUCCESS : apr_status_t := 0

/-- Address family `APR_INET` (the value of `AF_INET` in the platform headers). -/
def APR_INET : Int := 2

/-- Socket type `SOCK_STREAM` (platform headers). -/
def SOCK_STREAM : Int := 1

/-- Protocol `APR_PROTO_TCP` of `apr_network_io.h`. -/
def APR_PROTO_TCP : Int := 6

/-- Option `APR_SO_NONBLOCK` of `apr_network_io.h`. -/
def APR_SO_NONBLOCK : Int := 8

/-- Option `APR_SO_REUSEADDR` of `apr_network_io.h`. -/
def APR_SO_REUSEADDR : Int := 16

/-- Constant `APR_USEC_PER_SEC` of `apr_time.h`. -/
def APR_USEC_PER_SEC : Int := 1000000

/-- Source: `#define MAX_SERVER_CONNECTIONS 1`. -/
def MAX_SERVER_CONNECTIONS : Int := 1

/-- Source: `#define CLIENT_CONNECT_TIMEOUT_S 30`. -/
def CLIENT_CONNECT_TIMEOUT_S : Int := 30

/-- An `apr_socket_t *`: a handle owned by the runtime. -/
abbrev apr_socket_ptr := Nat

/-- The conversion of a C `int` to `apr_port_t` (an unsigned 16-bit integer), which happens
where `network.c` hands its `int` port to `apr_sockaddr_info_get`. -/
def to_apr_port_t (port : Int) : Int :=
  port % 65536

/-- An `apr_pool_t *`. -/
abbrev apr_pool_ptr := Nat

/-- A `char` buffer, one cell per `char`. -/
abbrev Buffer := List Nat

/-- The part of `apr_sockaddr_t` the wrapper reads (`family`), plus the identity of the
resolved address. -/
structure apr_sockaddr_t where
  family : Int
  ref : Nat
deriving DecidableEq, Repr

/-- The runtime calls made by `network.c`, with their in-parameters. -/
inductive AprCall where
  | apr_init
  | terminate
  | pool_create
  | pool_destroy (pool : apr_pool_ptr)
  | sockaddr_info_get (hostname : String) (family : Int) (port : Int) (flags : Int)
      (pool : apr_pool_ptr)
  | socket_create (family : Int) (type : Int) (protocol : Int) (pool : apr_pool_ptr)
  | socket_opt_set (sock : apr_socket_ptr) (opt : Int) (val : Int)
  | socket_timeout_set (sock : apr_socket_ptr) (t : Int)
  | socket_bind (sock : apr_socket_ptr) (sa : apr_sockaddr_t)
  | socket_listen (sock : apr_socket_ptr) (backlog : Int)
  | socket_accept (sock : apr_socket_ptr) (pool : apr_pool_ptr)
  | socket_connect (sock : apr_socket_ptr) (sa : apr_sockaddr_t)
  | socket_send (sock : apr_socket_ptr) (buf : Buffer) (len : Nat)
  | socket_recv (sock : apr_socket_ptr) (buf : Buffer) (len : Nat)
  | socket_close (sock : apr_socket_ptr)
deriving DecidableEq, Repr

/-- What a runtime call hands back: its status and its out-parameters (each call reads only
the out-parameters it has). -/
structure AprResp where
  status : apr_status_t
  sock : apr_socket_ptr
  sa : apr_sockaddr_t
  pool : apr_pool_ptr
  len : Nat
  buf : Buffer
deriving DecidableEq, Repr

/-- One runtime call together with the response it got. -/
structure Event where
  call : AprCall
  resp : AprResp
deriving DecidableEq, Repr

/-- The runtime: how it answers a call after a given history, and `apr_strerror`. -/
structure Runtime where
  respond : List Event → AprCall → AprResp
  strerror : apr_status_t → String

/-! ## Program state -/

/-- Source: `struct net_socket` of `network.h`. -/
structure net_socket where
  initialised : Bool
  connected : Bool
  socket : apr_socket_ptr
deriving DecidableEq, Repr

/-- The state the wrapper runs in: the `net_socket` objects by address, the file-static
`mem_pool`, the runtime calls made so far, and what was printed. -/
structure State where
  mem : Nat → net_socket
  mem_pool : apr_pool_ptr
  trace : List Event
  out : List String

/-- Make a runtime call: ask the runtime and record the call in the trace. -/
def apr (ρ : Runtime) (c : AprCall) (st : State) : AprResp × State :=
  let r := ρ.respond st.trace c
  (r, { st with trace := st.trace ++ [⟨c, r⟩] })

/-- The C library `printf`, with the text already formatted. -/
def printf (s : String) (st : State) : State :=
  { st with out := st.out ++ [s] }

/-- Assignment `p->initialised = b`. -/
def set_initialised (p : Nat) (b : Bool) (st : State) : State :=
  { st with mem := Function.update st.mem p { st.mem p with initialised := b } }

/-- Assignment `p->connected = b`. -/
def set_connected (p : Nat) (b : Bool) (st : State) : State :=
  { st with mem := Function.update st.mem p { st.mem p with connected := b } }

/-- Assignment `p->socket = s`. -/
def set_socket (p : Nat) (s : apr_socket_ptr) (st : State) : State :=
  { st with mem := Function.update st.mem p { st.mem p with socket := s } }

/-! ## The functions of `network.c` -/

/-- Source: `print_apr_error`. The message is cut to the 256-byte `err_buf`. -/
def print_apr_error (ρ : Runtime) (status : apr_status_t) (st : State) : State :=
  let err_buf := (ρ.strerror status).take 255
  printf ("Error: " ++ toString status ++ ", " ++ err_buf ++ "\n") st

/-- Source: `net_initialise`. -/
def net_initialise (ρ : Runtime) (st : State) : Int × State :=
  let r1 := apr ρ .apr_init st
  if r1.1.status ≠ APR_SUCCESS then
    (1, print_apr_error ρ r1.1.status (printf "Error initialising APR.\n" r1.2))
  else
    let r2 := apr ρ .pool_create r1.2
    let st2 : State := { r2.2 with mem_pool := r2.1.pool }
    if r2.1.status ≠ APR_SUCCESS then
      (1, print_apr_error ρ r2.1.status (printf "Error creating memory pool.\n" st2))
    else
      (0, st2)

/-- Source: `net_terminate` (a `void` function). -/
def net_terminate (ρ : Runtime) (st : State) : State :=
  let r1 := apr ρ (.pool_destroy st.mem_pool) st
  (apr ρ .terminate r1.2).2

/-- Source: `net_socket_send_data`. -/
def net_socket_send_data (ρ : Runtime) (socket : Nat) (data : Buffer) (data_size : Nat)
    (st : State) : Int × State :=
  if !(st.mem socket).connected then
    (1, printf "Error socket is not connected to an endpoint.\n" st)
  else
    let r := apr ρ (.socket_send (st.mem socket).socket data data_size) st
    let bytes_sent := r.1.len
    if r.1.status ≠ APR_SUCCESS then
      (1, print_apr_error ρ r.1.status
        (printf ("Error sending data. Number of bytes sent: " ++ toString bytes_sent ++ "\n")
          r.2))
    else if bytes_sent ≠ data_size then
      (1, printf ("Bytes sent != bytes to send: " ++ toString bytes_sent ++ " != "
        ++ toString data_size ++ "\n") r.2)
    else
      (0, r.2)

/-- Source: `net_socket_read_data`. The second component is the caller's buffer `data` after
the call. -/
def net_socket_read_data (ρ : Runtime) (socket : Nat) (data : Buffer) (data_size : Nat)
    (st : State) : Int × Buffer × State :=
  if !(st.mem socket).connected then
    (1, data, printf "Error socket is not connected to an endpoint.\n" st)
  else
    let r := apr ρ (.socket_recv (st.mem socket).socket data data_size) st
    let bytes_received := r.1.len
    let data := r.1.buf
    if r.1.status ≠ APR_SUCCESS then
      (1, data, print_apr_error ρ r.1.status
        (printf ("Error reading data. Number of bytes read: " ++ toString bytes_received
          ++ "\n") r.2))
    else if bytes_received ≠ data_size then
      (1, data, printf ("Bytes received != bytes to read: " ++ toString bytes_received
        ++ " != " ++ toString data_size ++ "\n") r.2)
    else
      (0, data, r.2)

/-- Source: `net_close_socket`. -/
def net_close_socket (ρ : Runtime) (socket : Nat) (st : State) : Int × State :=
  let r := apr ρ (.socket_close (st.mem socket).socket) st
  if r.1.status ≠ APR_SUCCESS then
    (1, print_apr_error ρ r.1.status (printf "Error closing socket.\n" r.2))
  else
    (0, set_initialised socket false (set_connected socket false r.2))

/-- Source: `net_create_server`. -/
def net_create_server (ρ : Runtime) (server : Nat) (hostname : String) (port : Int)
    (st : State) : Int × State :=
  if (st.mem server).initialised then
    (1, printf "Server is already initialised, please close it.\n" st)
  else
    let r1 := apr ρ (.sockaddr_info_get hostname APR_INET (to_apr_port_t port) 0 st.mem_pool) st
    let socket_addr := r1.1.sa
    if r1.1.status ≠ APR_SUCCESS then
      (1, print_apr_error ρ r1.1.status
        (printf "Error getting socket address information.\n" r1.2))
    else
      let r2 := apr ρ
        (.socket_create socket_addr.family SOCK_STREAM APR_PROTO_TCP r1.2.mem_pool) r1.2
      let socket := r2.1.sock
      if r2.1.status ≠ APR_SUCCESS then
        (1, print_apr_error ρ r2.1.status (printf "Error creating socket.\n" r2.2))
      else
        let r3 := apr ρ (.socket_opt_set socket APR_SO_NONBLOCK 0) r2.2
        let r4 :=
          if r3.1.status = APR_SUCCESS then apr ρ (.socket_timeout_set socket (-1)) r3.2
          else r3
        let r5 :=
          if r4.1.status = APR_SUCCESS then apr ρ (.socket_opt_set socket APR_SO_REUSEADDR 1) r4.2
          else r4
        if r5.1.status ≠ APR_SUCCESS then
          (1, print_apr_error ρ r5.1.status (printf "Error setting socket options.\n" r5.2))
        else
          let r6 := apr ρ (.socket_bind socket socket_addr) r5.2
          if r6.1.status ≠ APR_SUCCESS then
            (1, print_apr_error ρ r6.1.status (printf "Error binding socket.\n" r6.2))
          else
            let r7 := apr ρ (.socket_listen socket MAX_SERVER_CONNECTIONS) r6.2
            if r7.1.status ≠ APR_SUCCESS then
              (1, print_apr_error ρ r7.1.status (printf "Error listening.\n" r7.2))
            else
              (0, set_socket server socket (set_initialised server true r7.2))

/-- Source: `net_server_accept`. -/
def net_server_accept (ρ : Runtime) (client : Nat) (server : Nat) (st : State) :
    Int × State :=
  if !(st.mem server).initialised then
    (1, printf "Server is not initialised.\n" st)
  else if (st.mem server).connected then
    (1, printf ("Server is already connected to another endpoint, please close the "
      ++ "connection.\n") st)
  else
    let r := apr ρ (.socket_accept (st.mem server).socket st.mem_pool) st
    let socket := r.1.sock
    if r.1.status ≠ APR_SUCCESS then
      (1, print_apr_error ρ r.1.status (printf "Error accepting connection.\n" r.2))
    else
      (0, set_socket client socket (set_connected client true
        (set_initialised client true (set_connected server true r.2))))

/-- Source: `net_create_client`. -/
def net_create_client (ρ : Runtime) (client : Nat) (server_hostname : String)
    (server_port : Int) (st : State) : Int × State :=
  if (st.mem client).initialised then
    (1, printf "Client is already initialised.\n" st)
  else
    let r1 := apr ρ (.sockaddr_info_get server_hostname APR_INET (to_apr_port_t server_port) 0
      st.mem_pool) st
    let socket_addr := r1.1.sa
    if r1.1.status ≠ APR_SUCCESS then
      (1, print_apr_error ρ r1.1.status
        (printf "Error getting socket address information.\n" r1.2))
    else
      let r2 := apr ρ
        (.socket_create socket_addr.family SOCK_STREAM APR_PROTO_TCP r1.2.mem_pool) r1.2
      let socket := r2.1.sock
      if r2.1.status ≠ APR_SUCCESS then
        (1, print_apr_error ρ r2.1.status (printf "Error creating socket.\n" r2.2))
      else
        let r3 := apr ρ (.socket_opt_set socket APR_SO_NONBLOCK 0) r2.2
        let r4 :=
          if r3.1.status = APR_SUCCESS then
            apr ρ (.socket_timeout_set socket (APR_USEC_PER_SEC * CLIENT_CONNECT_TIMEOUT_S)) r3.2
          else r3
        if r4.1.status ≠ APR_SUCCESS then
          (1, print_apr_error ρ r4.1.status (printf "Error setting socket options.\n" r4.2))
        else
          let r5 := apr ρ (.socket_connect socket socket_addr) r4.2
          if r5.1.status ≠ APR_SUCCESS then
            (1, print_apr_error ρ r5.1.status (printf "Error connecting to socket.\n" r5.2))
          else
            let r6 := apr ρ (.socket_opt_set socket APR_SO_NONBLOCK 0) r5.2
            let r7 :=
              if r6.1.status = APR_SUCCESS then
                apr ρ (.socket_timeout_set socket (APR_USEC_PER_SEC * CLIENT_CONNECT_TIMEOUT_S))
                  r6.2
              else r6
            if r7.1.status ≠ APR_SUCCESS then
              (1, print_apr_error ρ r7.1.status
                (printf "Error setting socket options.\n" r7.2))
            else
              (0, set_socket client socket (set_connected client true
                (set_initialised client true r7.2)))

/-! ## The socket invariant, specification-level step lists, and test fixtures -/

/-- The invariant of the data model: `connected ⇒ initialised`. -/
def connected_implies_initialised (s : net_socket) : Prop :=
  s.connected = true → s.initialised = true

instance (s : net_socket) : Decidable (connected_implies_initialised s) := by
  unfold connected_implies_initialised
  exact inferInstance

/-- A runtime call answered by the runtime after the history `tr`. -/
def ask (ρ : Runtime) (tr : List Event) (c : AprCall) : Event :=
  ⟨c, ρ.respond tr c⟩

/-- A list of runtime calls answered in order, each after the history extended by the calls
before it. -/
def ask_all (ρ : Runtime) (tr : List Event) : List AprCall → List Event
  | [] => []
  | c :: cs => ask ρ tr c :: ask_all ρ (tr ++ [ask ρ tr c]) cs

/-- Specification of `createServer`: the runtime steps in the order the specification lists
them (resolve address, create socket, blocking mode, infinite timeout, address reuse, bind,
listen with backlog 1), each answered by the runtime after the steps before it. The port
reaches the runtime as an `apr_port_t`, the socket is created for the family of the resolved
address, and the later steps work on the created socket. -/
def create_server_steps (ρ : Runtime) (tr : List Event) (hostname : String) (port : Int)
    (pool : apr_pool_ptr) : List Event :=
  let e1 := ask ρ tr (.sockaddr_info_get hostname APR_INET (to_apr_port_t port) 0 pool)
  let e2 := ask ρ (tr ++ [e1]) (.socket_create e1.resp.sa.family SOCK_STREAM APR_PROTO_TCP pool)
  e1 :: e2 :: ask_all ρ (tr ++ [e1] ++ [e2])
    [.socket_opt_set e2.resp.sock APR_SO_NONBLOCK 0,
     .socket_timeout_set e2.resp.sock (-1),
     .socket_opt_set e2.resp.sock APR_SO_REUSEADDR 1,
     .socket_bind e2.resp.sock e1.resp.sa,
     .socket_listen e2.resp.sock 1]

/-- Specification of "sequential, fail-fast": of a list of steps, those that run are the
steps up to and including the first one that reports a non-success status. -/
def fail_fast : List Event → List Event
  | [] => []
  | e :: es => if e.resp.status = APR_SUCCESS then e :: fail_fast es else [e]

/-- Test fixture: a runtime that answers the `k`-th call of a run with the `k`-th status of
`script` (success once the script is used up), hands out the call's position plus one as the
new handle, and reports every transfer as complete. -/
def scriptRuntime (script : List apr_status_t) : Runtime where
  respond tr c :=
    let status := script.getD tr.length APR_SUCCESS
    match c with
    | .socket_send _ _ n => ⟨status, 0, ⟨APR_INET, 0⟩, 0, n, []⟩
    | .socket_recv _ b n => ⟨status, 0, ⟨APR_INET, 0⟩, 0, n, b⟩
    | _ => ⟨status, tr.length + 1, ⟨APR_INET, 0⟩, 1, 0, []⟩
  strerror _ := "error"

/-- Test fixture: every `net_socket` object holds `s`, nothing has been called or printed. -/
def stateOf (s : net_socket) : State :=
  ⟨fun _ => s, 0, [], []⟩

/-- Test fixture: the runtime in which every call succeeds. -/
def okRuntime : Runtime := scriptRuntime []

/-- Test fixture: zero-initialised `net_socket` objects, never created. -/
def freshState : State := stateOf ⟨false, false, 0⟩

/-- Test fixture: every object is an initialised, not connected socket with handle 5. -/
def listeningState : State := stateOf ⟨true, false, 5⟩

/-- Test fixture: every object is an initialised, connected socket with handle 7. -/
def connectedState : State := stateOf ⟨true, true, 7⟩

/-- Test fixture: object 0 is a listening server socket (initialised, not connected, handle
5), every other object is zero-initialised. -/
def serverState : State :=
  ⟨Function.update (fun _ => ⟨false, false, 0⟩) 0 ⟨true, false, 5⟩, 1, [], []⟩

/-- Test fixture: as `serverState`, and object 1 is a connected socket holding the open
handle 9. -/
def busyClientState : State :=
  ⟨Function.update (Function.update (fun _ => ⟨false, false, 0⟩) 0 ⟨true, false, 5⟩) 1
    ⟨true, true, 9⟩, 1, [], []⟩

/-! ## The option-setting chains of the two constructors

The constructors set their socket options in a chain `ret = f(); if (ret == APR_SUCCESS)
ret = g(); ...`. The chains are isolated here so that facts about them are proved once, for
an arbitrary state. -/

/-- The option chain of `net_create_server`: `r3`, `r4`, `r5` of its body. -/
def server_options (ρ : Runtime) (socket : apr_socket_ptr) (st : State) : AprResp × State :=
  let r3 := apr ρ (.socket_opt_set socket APR_SO_NONBLOCK 0) st
  let r4 :=
    if r3.1.status = APR_SUCCESS then apr ρ (.socket_timeout_set socket (-1)) r3.2
    else r3
  if r4.1.status = APR_SUCCESS then apr ρ (.socket_opt_set socket APR_SO_REUSEADDR 1) r4.2
  else r4

/-- The option chain of `net_create_client`: `r3`, `r4` (and again `r6`, `r7`) of its body. -/
def client_options (ρ : Runtime) (socket : apr_socket_ptr) (st : State) : AprResp × State :=
  let r3 := apr ρ (.socket_opt_set socket APR_SO_NONBLOCK 0) st
  if r3.1.status = APR_SUCCESS then
    apr ρ (.socket_timeout_set socket (APR_USEC_PER_SEC * CLIENT_CONNECT_TIMEOUT_S)) r3.2
  else r3

/-- The rest of `net_create_server` once the options are set: bind, listen, and the
assignments to the caller's object. -/
def server_from_bind (ρ : Runtime) (server : Nat) (socket_addr : apr_sockaddr_t)
    (socket : apr_socket_ptr) (st : State) : Int × State :=
  let r6 := apr ρ (.socket_bind socket socket_addr) st
  if r6.1.status ≠ APR_SUCCESS then
    (1, print_apr_error ρ r6.1.status (printf "Error binding socket.\n" r6.2))
  else
    let r7 := apr ρ (.socket_listen socket MAX_SERVER_CONNECTIONS) r6.2
    if r7.1.status ≠ APR_SUCCESS then
      (1, print_apr_error ρ r7.1.status (printf "Error listening.\n" r7.2))
    else
      (0, set_socket server socket (set_initialised server true r7.2))

/-- A call that started in `st` ended as the fail-fast run of `evs` prescribes: the trace
grew by the steps up to the first failure; either all steps succeeded, the call returned 0
and the objects are `fm`, or a step failed, the call returned 1 and the objects are those
of `st`. -/
def Outcome (st : State) (evs : List Event) (res : Int × State) (fm : Nat → net_socket) :
    Prop :=
  res.2.trace = st.trace ++ fail_fast evs
  ∧ ((res.1 = 0 ∧ (∀ e ∈ evs, e.resp.status = APR_SUCCESS) ∧ res.2.mem = fm)
    ∨ (res.1 = 1 ∧ (¬ ∀ e ∈ evs, e.resp.status = APR_SUCCESS) ∧ res.2.mem = st.mem))

/-! ## Sequences of calls -/

/-- A call of one of the entry points declared in `network.h`, with its arguments. -/
inductive ApiCall where
  | initialise
  | terminate
  | create_server (server : Nat) (hostname : String) (port : Int)
  | server_accept (client : Nat) (server : Nat)
  | create_client (client : Nat) (server_hostname : String) (server_port : Int)
  | socket_send_data (socket : Nat) (data : Buffer) (data_size : Nat)
  | socket_read_data (socket : Nat) (data : Buffer) (data_size : Nat)
  | close_socket (socket : Nat)
deriving DecidableEq, Repr

/-- Run one call: its return value (0 for the `void` function `net_terminate`) and the state
after it. -/
def exec (ρ : Runtime) : ApiCall → State → Int × State
  | .initialise, st => net_initialise ρ st
  | .terminate, st => (0, net_terminate ρ st)
  | .create_server server hostname port, st => net_create_server ρ server hostname port st
  | .server_accept client server, st => net_server_accept ρ client server st
  | .create_client client hostname port, st => net_create_client ρ client hostname port st
  | .socket_send_data socket data n, st => net_socket_send_data ρ socket data n st
  | .socket_read_data socket data n, st =>
      ((net_socket_read_data ρ socket data n st).1, (net_socket_read_data ρ socket data n st).2.2)
  | .close_socket socket, st => net_close_socket ρ socket st

/-- Run a sequence of calls, one after the other. -/
def run (ρ : Runtime) : List ApiCall → State → State
  | [], st => st
  | c :: cs, st => run ρ cs (exec ρ c st).2

/-- In the run of `cs` from `st`, no call is a `net_close_socket` on `sock` that returns
success. -/
def no_successful_close (ρ : Runtime) (sock : Nat) : List ApiCall → State → Prop
  | [], _ => True
  | c :: cs, st =>
      ¬ (c = .close_socket sock ∧ (exec ρ c st).1 = 0)
      ∧ no_successful_close ρ sock cs (exec ρ c st).2

/-! ## Basic facts about the state primitives -/

@[simp] theorem apr_fst (ρ : Runtime) (c : AprCall) (st : State) :
    (apr ρ c st).1 = ρ.respond st.trace c := rfl

@[simp] theorem apr_trace (ρ : Runtime) (c : AprCall) (st : State) :
    (apr ρ c st).2.trace = st.trace ++ [⟨c, ρ.respond st.trace c⟩] := rfl

@[simp] theorem apr_mem (ρ : Runtime) (c : AprCall) (st : State) :
    (apr ρ c st).2.mem = st.mem := rfl

@[simp] theorem apr_mem_pool (ρ : Runtime) (c : AprCall) (st : State) :
    (apr ρ c st).2.mem_pool = st.mem_pool := rfl

@[simp] theorem apr_out (ρ : Runtime) (c : AprCall) (st : State) :
    (apr ρ c st).2.out = st.out := rfl

@[simp] theorem printf_trace (s : String) (st : State) : (printf s st).trace = st.trace := rfl

@[simp] theorem printf_mem (s : String) (st : State) : (printf s st).mem = st.mem := rfl

@[simp] theorem printf_mem_pool (s : String) (st : State) :
    (printf s st).mem_pool = st.mem_pool := rfl

@[simp] theorem print_apr_error_trace (ρ : Runtime) (e : apr_status_t) (st : State) :
    (print_apr_error ρ e st).trace = st.trace := rfl

@[simp] theorem print_apr_error_mem (ρ : Runtime) (e : apr_status_t) (st : State) :
    (print_apr_error ρ e st).mem = st.mem := rfl

@[simp] theorem print_apr_error_mem_pool (ρ : Runtime) (e : apr_status_t) (st : State) :
    (print_apr_error ρ e st).mem_pool = st.mem_pool := rfl

@[simp] theorem set_initialised_trace (p : Nat) (b : Bool) (st : State) :
    (set_initialised p b st).trace = st.trace := rfl

@[simp] theorem set_connected_trace (p : Nat) (b : Bool) (st : State) :
    (set_connected p b st).trace = st.trace := rfl

@[simp] theorem set_socket_trace (p : Nat) (s : apr_socket_ptr) (st : State) :
    (set_socket p s st).trace = st.trace := rfl

@[simp] theorem set_initialised_mem (p : Nat) (b : Bool) (st : State) :
    (set_initialised p b st).mem
      = Function.update st.mem p { st.mem p with initialised := b } := rfl

@[simp] theorem set_connected_mem (p : Nat) (b : Bool) (st : State) :
    (set_connected p b st).mem
      = Function.update st.mem p { st.mem p with connected := b } := rfl

@[simp] theorem set_socket_mem (p : Nat) (s : apr_socket_ptr) (st : State) :
    (set_socket p s st).mem = Function.update st.mem p { st.mem p with socket := s } := rfl

theorem apr_trace_length (ρ : Runtime) (c : AprCall) (st : State) :
    (apr ρ c st).2.trace.length = st.trace.length + 1 := by
  simp

theorem net_initialise_mem (ρ : Runtime) (st : State) : (net_initialise ρ st).2.mem = st.mem := by
  simp only [net_initialise]
  split_ifs <;> rfl

theorem net_terminate_mem (ρ : Runtime) (st : State) : (net_terminate ρ st).mem = st.mem := rfl

theorem fail_fast_of_all_ok (es : List Event)
    (h : ∀ e ∈ es, e.resp.status = APR_SUCCESS) : fail_fast es = es := by
  induction es with
  | nil => rfl
  | cons e es ih =>
    have he : e.resp.status = APR_SUCCESS := h e (List.mem_cons_self e es)
    have ht : ∀ x ∈ es, x.resp.status = APR_SUCCESS :=
      fun x hx => h x (List.mem_cons_of_mem e hx)
    simp [fail_fast, he, ih ht]

theorem fail_fast_of_first_failure (pre post : List Event) (e : Event)
    (hpre : ∀ x ∈ pre, x.resp.status = APR_SUCCESS) (he : e.resp.status ≠ APR_SUCCESS) :
    fail_fast (pre ++ e :: post) = pre ++ [e] := by
  induction pre with
  | nil => simp [fail_fast, he]
  | cons x pre ih =>
    have hx : x.resp.status = APR_SUCCESS := hpre x (List.mem_cons_self x pre)
    have ht : ∀ y ∈ pre, y.resp.status = APR_SUCCESS :=
      fun y hy => hpre y (List.mem_cons_of_mem x hy)
    simp [fail_fast, hx, ih ht]

/-! ## The constructors in terms of their option chains -/

theorem net_create_server_eq (ρ : Runtime) (server : Nat) (hostname : String) (port : Int)
    (st : State) :
    net_create_server ρ server hostname port st =
      if (st.mem server).initialised then
        (1, printf "Server is already initialised, please close it.\n" st)
      else
        let r1 := apr ρ (.sockaddr_info_get hostname APR_INET (to_apr_port_t port) 0 st.mem_pool) st
        if r1.1.status ≠ APR_SUCCESS then
          (1, print_apr_error ρ r1.1.status
            (printf "Error getting socket address information.\n" r1.2))
        else
          let r2 := apr ρ
            (.socket_create r1.1.sa.family SOCK_STREAM APR_PROTO_TCP r1.2.mem_pool) r1.2
          if r2.1.status ≠ APR_SUCCESS then
            (1, print_apr_error ρ r2.1.status (printf "Error creating socket.\n" r2.2))
          else
            let r5 := server_options ρ r2.1.sock r2.2
            if r5.1.status ≠ APR_SUCCESS then
              (1, print_apr_error ρ r5.1.status
                (printf "Error setting socket options.\n" r5.2))
            else
              server_from_bind ρ server r1.1.sa r2.1.sock r5.2 :=
  rfl

theorem net_create_client_eq (ρ : Runtime) (client : Nat) (server_hostname : String)
    (server_port : Int) (st : State) :
    net_create_client ρ client server_hostname server_port st =
      if (st.mem client).initialised then
        (1, printf "Client is already initialised.\n" st)
      else
        let r1 := apr ρ
          (.sockaddr_info_get server_hostname APR_INET (to_apr_port_t server_port) 0 st.mem_pool) st
        if r1.1.status ≠ APR_SUCCESS then
          (1, print_apr_error ρ r1.1.status
            (printf "Error getting socket address information.\n" r1.2))
        else
          let r2 := apr ρ
            (.socket_create r1.1.sa.family SOCK_STREAM APR_PROTO_TCP r1.2.mem_pool) r1.2
          if r2.1.status ≠ APR_SUCCESS then
            (1, print_apr_error ρ r2.1.status (printf "Error creating socket.\n" r2.2))
          else
            let r4 := client_options ρ r2.1.sock r2.2
            if r4.1.status ≠ APR_SUCCESS then
              (1, print_apr_error ρ r4.1.status
                (printf "Error setting socket options.\n" r4.2))
            else
              let r5 := apr ρ (.socket_connect r2.1.sock r1.1.sa) r4.2
              if r5.1.status ≠ APR_SUCCESS then
                (1, print_apr_error ρ r5.1.status
                  (printf "Error connecting to socket.\n" r5.2))
              else
                let r7 := client_options ρ r2.1.sock r5.2
                if r7.1.status ≠ APR_SUCCESS then
                  (1, print_apr_error ρ r7.1.status
                    (printf "Error setting socket options.\n" r7.2))
                else
                  (0, set_socket client r2.1.sock (set_connected client true
                    (set_initialised client true r7.2))) :=
  rfl

@[simp] theorem server_options_mem (ρ : Runtime) (socket : apr_socket_ptr) (st : State) :
    (server_options ρ socket st).2.mem = st.mem := by
  simp only [server_options]
  split_ifs <;> rfl

@[simp] theorem client_options_mem (ρ : Runtime) (socket : apr_socket_ptr) (st : State) :
    (client_options ρ socket st).2.mem = st.mem := by
  simp only [client_options]
  split_ifs <;> rfl

theorem client_options_trace_length (ρ : Runtime) (socket : apr_socket_ptr) (st : State) :
    st.trace.length < (client_options ρ socket st).2.trace.length := by
  simp only [client_options]
  split_ifs <;> simp

theorem outcome_step (ρ : Runtime) (c : AprCall) (st : State) (msg : String)
    (evs : List Event) (fm : Nat → net_socket) (res res' : Int × State)
    (hres : res = if (apr ρ c st).1.status ≠ APR_SUCCESS then
        (1, print_apr_error ρ (apr ρ c st).1.status (printf msg (apr ρ c st).2)) else res')
    (hK : Outcome (apr ρ c st).2 evs res' fm) :
    Outcome st (ask ρ st.trace c :: evs) res fm := by
  subst hres
  unfold Outcome at hK ⊢
  by_cases h : (ρ.respond st.trace c).status = APR_SUCCESS
  · obtain ⟨ht, hm⟩ := hK
    simp only [apr_fst, h, ne_eq, not_true_eq_false, if_false, fail_fast, ask, if_true]
    refine ⟨by simpa [ask] using ht, ?_⟩
    simpa [h, ask] using hm
  · simp [h, fail_fast, ask]

theorem server_options_chain (ρ : Runtime) (socket : apr_socket_ptr) (st : State)
    (msg : String) (K : State → Int × State) :
    (if (server_options ρ socket st).1.status ≠ APR_SUCCESS then
        (1, print_apr_error ρ (server_options ρ socket st).1.status
          (printf msg (server_options ρ socket st).2))
      else K (server_options ρ socket st).2)
    = if (apr ρ (.socket_opt_set socket APR_SO_NONBLOCK 0) st).1.status ≠ APR_SUCCESS then
        (1, print_apr_error ρ (apr ρ (.socket_opt_set socket APR_SO_NONBLOCK 0) st).1.status
          (printf msg (apr ρ (.socket_opt_set socket APR_SO_NONBLOCK 0) st).2))
      else if (apr ρ (.socket_timeout_set socket (-1))
          (apr ρ (.socket_opt_set socket APR_SO_NONBLOCK 0) st).2).1.status ≠ APR_SUCCESS then
        (1, print_apr_error ρ (apr ρ (.socket_timeout_set socket (-1))
            (apr ρ (.socket_opt_set socket APR_SO_NONBLOCK 0) st).2).1.status
          (printf msg (apr ρ (.socket_timeout_set socket (-1))
            (apr ρ (.socket_opt_set socket APR_SO_NONBLOCK 0) st).2).2))
      else if (apr ρ (.socket_opt_set socket APR_SO_REUSEADDR 1)
          (apr ρ (.socket_timeout_set socket (-1))
            (apr ρ (.socket_opt_set socket APR_SO_NONBLOCK 0) st).2).2).1.status
            ≠ APR_SUCCESS then
        (1, print_apr_error ρ (apr ρ (.socket_opt_set socket APR_SO_REUSEADDR 1)
            (apr ρ (.socket_timeout_set socket (-1))
              (apr ρ (.socket_opt_set socket APR_SO_NONBLOCK 0) st).2).2).1.status
          (printf msg (apr ρ (.socket_opt_set socket APR_SO_REUSEADDR 1)
            (apr ρ (.socket_timeout_set socket (-1))
              (apr ρ (.socket_opt_set socket APR_SO_NONBLOCK 0) st).2).2).2))
      else K (apr ρ (.socket_opt_set socket APR_SO_REUSEADDR 1)
          (apr ρ (.socket_timeout_set socket (-1))
            (apr ρ (.socket_opt_set socket APR_SO_NONBLOCK 0) st).2).2).2 := by
  simp only [server_options]
  by_cases h1 : (apr ρ (.socket_opt_set socket APR_SO_NONBLOCK 0) st).1.status = APR_SUCCESS
  · by_cases h2 : (apr ρ (.socket_timeout_set socket (-1))
        (apr ρ (.socket_opt_set socket APR_SO_NONBLOCK 0) st).2).1.status = APR_SUCCESS
    · simp only [h1, h2, if_true, ne_eq, not_true_eq_false, if_false]
    · simp only [h1, h2, if_true, ne_eq, not_true_eq_false, if_false, not_false_eq_true]
  · simp only [h1, if_false, ne_eq, not_false_eq_true, if_true]

theorem create_server_outcome (ρ : Runtime) (st : State) (server : Nat) (hostname : String)
    (port : Int) (hi : (st.mem server).initialised = false) :
    Outcome st (create_server_steps ρ st.trace hostname port st.mem_pool)
      (net_create_server ρ server hostname port st)
      (Function.update st.mem server ⟨true, (st.mem server).connected,
        (ask ρ (st.trace ++ [ask ρ st.trace
            (.sockaddr_info_get hostname APR_INET (to_apr_port_t port) 0 st.mem_pool)])
          (.socket_create (ask ρ st.trace
              (.sockaddr_info_get hostname APR_INET (to_apr_port_t port) 0 st.mem_pool)).resp.sa.family
            SOCK_STREAM APR_PROTO_TCP st.mem_pool)).resp.sock⟩) := by
  rw [net_create_server_eq]
  simp only [hi, Bool.false_eq_true, if_false]
  refine outcome_step ρ _ st _ _ _ _ _ rfl ?_
  refine outcome_step ρ _ _ _ _ _ _ _ rfl ?_
  rw [server_options_chain]
  refine outcome_step ρ _ _ _ _ _ _ _ rfl ?_
  refine outcome_step ρ _ _ _ _ _ _ _ rfl ?_
  refine outcome_step ρ _ _ _ _ _ _ _ rfl ?_
  unfold server_from_bind
  refine outcome_step ρ _ _ _ _ _ _ _ rfl ?_
  refine outcome_step ρ _ _ _ _ _ _ _ rfl ?_
  unfold Outcome
  refine ⟨?_, Or.inl ⟨rfl, ?_, ?_⟩⟩
  · simp only [ask_all, fail_fast, List.append_nil, set_socket_trace, set_initialised_trace]
    rfl
  · intro e he
    simp only [ask_all, List.not_mem_nil] at he
  · simp only [set_socket_mem, set_initialised_mem, Function.update_same,
      Function.update_idem, apr_mem]
    rfl

/-! ## How each call changes the `net_socket` objects -/

theorem create_server_mem (ρ : Runtime) (st : State) (server : Nat) (hostname : String)
    (port : Int) :
    (net_create_server ρ server hostname port st).2.mem = st.mem
    ∨ ∃ s, (net_create_server ρ server hostname port st).2.mem
        = Function.update st.mem server ⟨true, (st.mem server).connected, s⟩ := by
  by_cases hi : (st.mem server).initialised = true
  · left
    simp [net_create_server, hi]
  · rcases (create_server_outcome ρ st server hostname port (by simpa using hi)).2 with
      ⟨_, _, e⟩ | ⟨_, _, e⟩
    · exact Or.inr ⟨_, e⟩
    · exact Or.inl e

theorem create_client_mem (ρ : Runtime) (st : State) (client : Nat) (hostname : String)
    (port : Int) :
    (net_create_client ρ client hostname port st).2.mem = st.mem
    ∨ ∃ s, (net_create_client ρ client hostname port st).2.mem
        = Function.update st.mem client ⟨true, true, s⟩ := by
  simp only [net_create_client_eq]
  split_ifs
  all_goals first | (left; simp; done) | (right; simp; exact ⟨_, rfl⟩)

theorem server_accept_mem (ρ : Runtime) (st : State) (client server : Nat) :
    (net_server_accept ρ client server st).2.mem = st.mem
    ∨ ((st.mem server).initialised = true
      ∧ ∃ s, (net_server_accept ρ client server st).2.mem
        = Function.update
            (Function.update st.mem server { st.mem server with connected := true })
            client ⟨true, true, s⟩) := by
  simp only [net_server_accept]
  split_ifs with h1 h2 h3
  · left; rfl
  · left; rfl
  · left; rfl
  · right
    refine ⟨by simpa using h1, ?_⟩
    simp
    exact ⟨_, rfl⟩

theorem send_data_mem (ρ : Runtime) (st : State) (socket : Nat) (data : Buffer)
    (data_size : Nat) : (net_socket_send_data ρ socket data data_size st).2.mem = st.mem := by
  simp only [net_socket_send_data]
  split_ifs <;> rfl

theorem read_data_mem (ρ : Runtime) (st : State) (socket : Nat) (data : Buffer)
    (data_size : Nat) :
    (net_socket_read_data ρ socket data data_size st).2.2.mem = st.mem := by
  simp only [net_socket_read_data]
  split_ifs <;> rfl

theorem close_socket_mem (ρ : Runtime) (st : State) (socket : Nat) :
    ((net_close_socket ρ socket st).1 ≠ 0 ∧ (net_close_socket ρ socket st).2.mem = st.mem)
    ∨ ((net_close_socket ρ socket st).1 = 0 ∧ (net_close_socket ρ socket st).2.mem
        = Function.update st.mem socket ⟨false, false, (st.mem socket).socket⟩) := by
  simp only [net_close_socket]
  split_ifs
  · left; exact ⟨by simp, rfl⟩
  · right; exact ⟨rfl, by simp⟩

theorem exec_keeps_connected (ρ : Runtime) (c : ApiCall) (st : State) (s : Nat)
    (hc : (st.mem s).connected = true)
    (hno : ¬ (c = .close_socket s ∧ (exec ρ c st).1 = 0)) :
    ((exec ρ c st).2.mem s).connected = true := by
  cases c with
  | initialise => simpa [exec, net_initialise_mem] using hc
  | terminate => simpa [exec, net_terminate_mem] using hc
  | create_server server hostname port =>
    rcases create_server_mem ρ st server hostname port with e | ⟨x, e⟩
    · simpa [exec, e] using hc
    · by_cases hs : s = server
      · subst hs
        simpa [exec, e] using hc
      · simpa [exec, e, Function.update_apply, hs] using hc
  | server_accept client server =>
    rcases server_accept_mem ρ st client server with e | ⟨_, x, e⟩
    · simpa [exec, e] using hc
    · by_cases hs : s = client
      · subst hs
        simp [exec, e]
      · by_cases hs2 : s = server
        · subst hs2
          simp [exec, e, Function.update_apply, hs]
        · simpa [exec, e, Function.update_apply, hs, hs2] using hc
  | create_client client hostname port =>
    rcases create_client_mem ρ st client hostname port with e | ⟨x, e⟩
    · simpa [exec, e] using hc
    · by_cases hs : s = client
      · subst hs
        simp [exec, e]
      · simpa [exec, e, Function.update_apply, hs] using hc
  | socket_send_data socket data n => simpa [exec, send_data_mem] using hc
  | socket_read_data socket data n => simpa [exec, read_data_mem] using hc
  | close_socket socket =>
    rcases close_socket_mem ρ st socket with ⟨_, e⟩ | ⟨h0, e⟩
    · simpa [exec, e] using hc
    · have hs : s ≠ socket := by
        intro hs
        subst hs
        exact hno ⟨rfl, h0⟩
      simpa [exec, e, Function.update_apply, hs] using hc

theorem run_keeps_connected (ρ : Runtime) (cs : List ApiCall) (s : Nat) :
    ∀ st : State, (st.mem s).connected = true → no_successful_close ρ s cs st →
      ((run ρ cs st).mem s).connected = true := by
  induction cs with
  | nil => intro st hc _; exact hc
  | cons c cs ih =>
    intro st hc hno
    exact ih (exec ρ c st).2 (exec_keeps_connected ρ c st s hc hno.1) hno.2

theorem accept_success_marks_server (ρ : Runtime) (st : State) (client server : Nat)
    (h0 : (net_server_accept ρ client server st).1 = 0) :
    ((net_server_accept ρ client server st).2.mem server).connected = true := by
  simp only [net_server_accept] at h0 ⊢
  split_ifs at h0 ⊢
  · simp at h0
  · simp at h0
  · simp at h0
  · by_cases hs : server = client
    · subst hs
      simp
    · simp [Function.update_apply, hs]

theorem accept_rejects_connected (ρ : Runtime) (st : State) (client server : Nat)
    (hc : (st.mem server).connected = true) :
    (net_server_accept ρ client server st).1 = 1
    ∧ (net_server_accept ρ client server st).2.trace = st.trace := by
  simp only [net_server_accept, hc, if_true]
  split_ifs <;> exact ⟨rfl, rfl⟩

theorem exec_preserves_invariant (ρ : Runtime) (c : ApiCall) (st : State) (q : Nat)
    (h : connected_implies_initialised (st.mem q)) :
    connected_implies_initialised ((exec ρ c st).2.mem q) := by
  unfold connected_implies_initialised at h ⊢
  cases c with
  | initialise => simpa [exec, net_initialise_mem] using h
  | terminate => simpa [exec, net_terminate_mem] using h
  | create_server server hostname port =>
    rcases create_server_mem ρ st server hostname port with e | ⟨x, e⟩
    · simpa [exec, e] using h
    · by_cases hq : q = server
      · subst hq
        simp [exec, e]
      · simpa [exec, e, Function.update_apply, hq] using h
  | server_accept client server =>
    rcases server_accept_mem ρ st client server with e | ⟨hi, x, e⟩
    · simpa [exec, e] using h
    · by_cases hq : q = client
      · subst hq
        simp [exec, e]
      · by_cases hq2 : q = server
        · subst hq2
          simp [exec, e, Function.update_apply, hq, hi]
        · simpa [exec, e, Function.update_apply, hq, hq2] using h
  | create_client client hostname port =>
    rcases create_client_mem ρ st client hostname port with e | ⟨x, e⟩
    · simpa [exec, e] using h
    · by_cases hq : q = client
      · subst hq
        simp [exec, e]
      · simpa [exec, e, Function.update_apply, hq] using h
  | socket_send_data socket data n => simpa [exec, send_data_mem] using h
  | socket_read_data socket data n => simpa [exec, read_data_mem] using h
  | close_socket socket =>
    rcases close_socket_mem ρ st socket with ⟨_, e⟩ | ⟨_, e⟩
    · simpa [exec, e] using h
    · by_cases hq : q = socket
      · subst hq
        simp [exec, e]
      · simpa [exec, e, Function.update_apply, hq] using h

/-- Every state reached through the entry points from a state in which an object satisfies
`connected ⇒ initialised`, such as zero-initialised storage, still has that object satisfy
it. -/
theorem run_preserves_invariant (ρ : Runtime) (cs : List ApiCall) (q : Nat) :
    ∀ st : State, connected_implies_initialised (st.mem q) →
      connected_implies_initialised ((run ρ cs st).mem q) := by
  induction cs with
  | nil => intro st h; exact h
  | cons c cs ih =>
    intro st h
    exact ih (exec ρ c st).2 (exec_preserves_invariant ρ c st q h)

/-! ## Guards of the two constructors -/

/-- C3: on a socket whose `initialised` flag is set, `net_create_server` and
`net_create_client` both return 1, make no runtime call (the trace is unchanged), and leave
every `net_socket` object, in particular the flags and the handle of the socket passed in,
as it was. -/
theorem create_on_initialised_rejected (ρ : Runtime) (st : State) (sock : Nat)
    (hostname : String) (port : Int) (h : (st.mem sock).initialised = true) :
    ((net_create_server ρ sock hostname port st).1 = 1
      ∧ (net_create_server ρ sock hostname port st).2.trace = st.trace
      ∧ (net_create_server ρ sock hostname port st).2.mem = st.mem)
    ∧ ((net_create_client ρ sock hostname port st).1 = 1
      ∧ (net_create_client ρ sock hostname port st).2.trace = st.trace
      ∧ (net_create_client ρ sock hostname port st).2.mem = st.mem) := by
  simp [net_create_server, net_create_client, h]

/-- C4: on a socket whose `connected` flag is clear, `net_socket_send_data` and
`net_socket_read_data` both return 1 without any runtime call (the trace is unchanged), leave
every `net_socket` object as it was, and the read leaves the caller's buffer as it was (the
send takes its buffer read-only). -/
theorem io_on_unconnected_rejected (ρ : Runtime) (st : State) (sock : Nat) (data : Buffer)
    (data_size : Nat) (h : (st.mem sock).connected = false) :
    ((net_socket_send_data ρ sock data data_size st).1 = 1
      ∧ (net_socket_send_data ρ sock data data_size st).2.trace = st.trace
      ∧ (net_socket_send_data ρ sock data data_size st).2.mem = st.mem)
    ∧ ((net_socket_read_data ρ sock data data_size st).1 = 1
      ∧ (net_socket_read_data ρ sock data data_size st).2.1 = data
      ∧ (net_socket_read_data ρ sock data data_size st).2.2.trace = st.trace
      ∧ (net_socket_read_data ρ sock data data_size st).2.2.mem = st.mem) := by
  simp [net_socket_send_data, net_socket_read_data, h]

/-! ## Exact-length transfers -/

/-- C5: on a connected socket `net_socket_send_data` makes exactly one runtime call, the send
of the requested length on the socket's handle, and returns 0 exactly when that call reports
success and a byte count equal to the requested length; otherwise it returns 1, in particular
whenever fewer bytes than requested were transferred. The same holds for
`net_socket_read_data` with the receive call, whose buffer is handed to the caller. -/
theorem exact_length_io (ρ : Runtime) (st : State) (sock : Nat) (data : Buffer)
    (data_size : Nat) (h : (st.mem sock).connected = true) :
    ((net_socket_send_data ρ sock data data_size st).2.trace
        = st.trace ++ [⟨.socket_send (st.mem sock).socket data data_size,
            ρ.respond st.trace (.socket_send (st.mem sock).socket data data_size)⟩]
      ∧ ((net_socket_send_data ρ sock data data_size st).1 = 0 ↔
          (ρ.respond st.trace (.socket_send (st.mem sock).socket data data_size)).status
              = APR_SUCCESS
            ∧ (ρ.respond st.trace (.socket_send (st.mem sock).socket data data_size)).len
              = data_size)
      ∧ ((net_socket_send_data ρ sock data data_size st).1 = 0
          ∨ (net_socket_send_data ρ sock data data_size st).1 = 1)
      ∧ ((ρ.respond st.trace (.socket_send (st.mem sock).socket data data_size)).len
            < data_size → (net_socket_send_data ρ sock data data_size st).1 = 1))
    ∧ ((net_socket_read_data ρ sock data data_size st).2.2.trace
        = st.trace ++ [⟨.socket_recv (st.mem sock).socket data data_size,
            ρ.respond st.trace (.socket_recv (st.mem sock).socket data data_size)⟩]
      ∧ ((net_socket_read_data ρ sock data data_size st).1 = 0 ↔
          (ρ.respond st.trace (.socket_recv (st.mem sock).socket data data_size)).status
              = APR_SUCCESS
            ∧ (ρ.respond st.trace (.socket_recv (st.mem sock).socket data data_size)).len
              = data_size)
      ∧ ((net_socket_read_data ρ sock data data_size st).1 = 0
          ∨ (net_socket_read_data ρ sock data data_size st).1 = 1)
      ∧ ((ρ.respond st.trace (.socket_recv (st.mem sock).socket data data_size)).len
            < data_size → (net_socket_read_data ρ sock data data_size st).1 = 1)) := by
  constructor
  · simp only [net_socket_send_data, h, Bool.not_true, Bool.false_eq_true, if_false]
    refine ⟨?_, ?_, ?_, ?_⟩
    · split_ifs <;> simp
    · split_ifs <;> simp_all
    · split_ifs <;> simp
    · intro hlt
      split_ifs <;> simp_all
  · simp only [net_socket_read_data, h, Bool.not_true, Bool.false_eq_true, if_false]
    refine ⟨?_, ?_, ?_, ?_⟩
    · split_ifs <;> simp
    · split_ifs <;> simp_all
    · split_ifs <;> simp
    · intro hlt
      split_ifs <;> simp_all

/-! ## Closing -/

theorem create_server_reaches_runtime (ρ : Runtime) (st : State) (sock : Nat)
    (hostname : String) (port : Int) (h : (st.mem sock).initialised = false) :
    st.trace.length < (net_create_server ρ sock hostname port st).2.trace.length := by
  rw [(create_server_outcome ρ st sock hostname port h).1]
  simp only [create_server_steps, fail_fast]
  split_ifs <;> simp

theorem create_client_reaches_runtime (ρ : Runtime) (st : State) (sock : Nat)
    (hostname : String) (port : Int) (h : (st.mem sock).initialised = false) :
    st.trace.length < (net_create_client ρ sock hostname port st).2.trace.length := by
  simp only [net_create_client_eq, h, Bool.false_eq_true, if_false]
  have h1 := apr_trace_length ρ (.sockaddr_info_get hostname APR_INET (to_apr_port_t port) 0 st.mem_pool) st
  generalize apr ρ (.sockaddr_info_get hostname APR_INET (to_apr_port_t port) 0 st.mem_pool) st = r1 at h1 ⊢
  have h2 := apr_trace_length ρ
    (.socket_create r1.1.sa.family SOCK_STREAM APR_PROTO_TCP r1.2.mem_pool) r1.2
  generalize apr ρ
    (.socket_create r1.1.sa.family SOCK_STREAM APR_PROTO_TCP r1.2.mem_pool) r1.2 = r2 at h2 ⊢
  have h4 := client_options_trace_length ρ r2.1.sock r2.2
  generalize client_options ρ r2.1.sock r2.2 = r4 at h4 ⊢
  have h5 := apr_trace_length ρ (.socket_connect r2.1.sock r1.1.sa) r4.2
  generalize apr ρ (.socket_connect r2.1.sock r1.1.sa) r4.2 = r5 at h5 ⊢
  have h7 := client_options_trace_length ρ r2.1.sock r5.2
  generalize client_options ρ r2.1.sock r5.2 = r7 at h7 ⊢
  split_ifs <;>
    simp only [print_apr_error_trace, printf_trace, set_socket_trace, set_connected_trace,
      set_initialised_trace] <;> omega

/-- C8: whatever the socket's flags, `net_close_socket` makes the runtime close call on the
socket's handle and returns 0 exactly when that call reports success. On success `connected`
and `initialised` are both false afterwards, so a following `net_create_server` or
`net_create_client` on the same socket passes the already-initialised guard and goes on to
call the runtime. On failure it returns 1 and every `net_socket` object, in particular the
flags and handle of this one, is as before. -/
theorem close_socket_spec (ρ : Runtime) (st : State) (sock : Nat) :
    (net_close_socket ρ sock st).2.trace
        = st.trace ++ [ask ρ st.trace (.socket_close (st.mem sock).socket)]
    ∧ ((net_close_socket ρ sock st).1 = 0 ↔
        (ρ.respond st.trace (.socket_close (st.mem sock).socket)).status = APR_SUCCESS)
    ∧ ((net_close_socket ρ sock st).1 = 0 →
        ((net_close_socket ρ sock st).2.mem sock).connected = false
        ∧ ((net_close_socket ρ sock st).2.mem sock).initialised = false
        ∧ ∀ (hostname : String) (port : Int),
            (net_close_socket ρ sock st).2.trace.length
              < (net_create_server ρ sock hostname port
                  (net_close_socket ρ sock st).2).2.trace.length
            ∧ (net_close_socket ρ sock st).2.trace.length
              < (net_create_client ρ sock hostname port
                  (net_close_socket ρ sock st).2).2.trace.length)
    ∧ ((net_close_socket ρ sock st).1 ≠ 0 →
        (net_close_socket ρ sock st).1 = 1 ∧ (net_close_socket ρ sock st).2.mem = st.mem) := by
  have hflags : (net_close_socket ρ sock st).1 = 0 →
      ((net_close_socket ρ sock st).2.mem sock).connected = false
      ∧ ((net_close_socket ρ sock st).2.mem sock).initialised = false := by
    simp only [net_close_socket]
    split_ifs <;> simp
  refine ⟨?_, ?_, ?_, ?_⟩
  · simp only [net_close_socket, ask]
    split_ifs <;> simp
  · simp only [net_close_socket]
    split_ifs <;> simp_all
  · intro h0
    refine ⟨(hflags h0).1, (hflags h0).2, fun hostname port => ⟨?_, ?_⟩⟩
    · exact create_server_reaches_runtime ρ _ sock hostname port (hflags h0).2
    · exact create_client_reaches_runtime ρ _ sock hostname port (hflags h0).2
  · simp only [net_close_socket]
    split_ifs <;> simp

/-! ## Accepting -/

/-- C6: `net_server_accept` returns 0 exactly when the server is initialised, not connected,
and the runtime accept call on its handle reports success. On success that call is the one
runtime call made, the server's `connected` is true, and the client object holds
`initialised = true`, `connected = true` and the accepted handle (a server object distinct
from the client keeps its other fields). On every failure it returns 1 and every `net_socket`
object is as before; when the server is not initialised or already connected no runtime call
is made. -/
theorem server_accept_spec (ρ : Runtime) (st : State) (client server : Nat) :
    ((net_server_accept ρ client server st).1 = 0 ↔
        (st.mem server).initialised = true ∧ (st.mem server).connected = false
        ∧ (ρ.respond st.trace (.socket_accept (st.mem server).socket st.mem_pool)).status
            = APR_SUCCESS)
    ∧ ((net_server_accept ρ client server st).1 = 0 →
        (net_server_accept ρ client server st).2.trace
            = st.trace ++ [ask ρ st.trace (.socket_accept (st.mem server).socket st.mem_pool)]
        ∧ ((net_server_accept ρ client server st).2.mem server).connected = true
        ∧ (net_server_accept ρ client server st).2.mem client
            = ⟨true, true,
                (ρ.respond st.trace (.socket_accept (st.mem server).socket st.mem_pool)).sock⟩
        ∧ (client ≠ server → (net_server_accept ρ client server st).2.mem server
            = { st.mem server with connected := true }))
    ∧ ((net_server_accept ρ client server st).1 ≠ 0 →
        (net_server_accept ρ client server st).1 = 1
        ∧ (net_server_accept ρ client server st).2.mem = st.mem)
    ∧ ((st.mem server).initialised = false ∨ (st.mem server).connected = true →
        (net_server_accept ρ client server st).1 = 1
        ∧ (net_server_accept ρ client server st).2.trace = st.trace) := by
  refine ⟨?_, ?_, ?_, ?_⟩
  · simp only [net_server_accept]
    split_ifs <;> simp_all
  · simp only [net_server_accept, ask]
    split_ifs <;> simp
    by_cases hcs : client = server
    · subst hcs
      simp
    · simp [Function.update_apply, hcs, Ne.symm hcs]
  · simp only [net_server_accept]
    split_ifs <;> simp
  · simp only [net_server_accept]
    rintro (h | h)
    · simp [h]
    · split_ifs <;> simp_all

/-- C10: `net_server_accept` does not look at what the client object held. On an initialised,
not connected server whose runtime accept reports success it returns 0 for every client
object, stores the accepted handle in it, and makes the accept call as its only runtime call,
so no close call is made on the handle the client held before. For a client object distinct
from the server, replacing the client's prior contents by any value `v` (for instance an
initialised, connected socket holding an open handle) changes nothing in the outcome. -/
theorem accept_overwrites_client (ρ : Runtime) (st : State) (client server : Nat)
    (v : net_socket)
    (hi : (st.mem server).initialised = true) (hc : (st.mem server).connected = false)
    (hr : (ρ.respond st.trace (.socket_accept (st.mem server).socket st.mem_pool)).status
        = APR_SUCCESS) :
    (net_server_accept ρ client server st).1 = 0
    ∧ ((net_server_accept ρ client server st).2.mem client).socket
        = (ρ.respond st.trace (.socket_accept (st.mem server).socket st.mem_pool)).sock
    ∧ (net_server_accept ρ client server st).2.trace
        = st.trace ++ [ask ρ st.trace (.socket_accept (st.mem server).socket st.mem_pool)]
    ∧ (client ≠ server →
        net_server_accept ρ client server { st with mem := Function.update st.mem client v }
          = net_server_accept ρ client server st) := by
  refine ⟨?_, ?_, ?_, ?_⟩
  · simp [net_server_accept, hi, hc, hr]
  · simp [net_server_accept, hi, hc, hr]
  · simp [net_server_accept, hi, hc, hr, ask]
  · intro hcs
    have hs : Function.update st.mem client v server = st.mem server := by
      simp [Function.update_apply, Ne.symm hcs]
    simp only [net_server_accept, hs, hi, hc, Bool.not_true, Bool.false_eq_true, if_false,
      apr, hr, ne_eq, not_true_eq_false, set_socket, set_connected, set_initialised,
      Function.update_same, Function.update_idem]
    congr 2
    funext q
    by_cases hq : q = client
    · subst hq
      simp
    · by_cases hq2 : q = server
      · subst hq2
        simp [Function.update_apply, hq, hs]
      · simp [Function.update_apply, hq, hq2]

/-! ## The invariant -/

/-- C1: `connected ⇒ initialised` is preserved, object by object, by each of
`net_create_server`, `net_server_accept`, `net_create_client`, `net_socket_send_data`,
`net_socket_read_data` and `net_close_socket`: any `net_socket` object `q` that satisfies it
before the call (the object the call works on, either argument of the accept, or any other
one) satisfies it after the call, for every runtime and all arguments. -/
theorem invariant_preserved (ρ : Runtime) (st : State) (q : Nat) (sock sock2 : Nat)
    (hostname : String) (port : Int) (data : Buffer) (data_size : Nat)
    (h : connected_implies_initialised (st.mem q)) :
    connected_implies_initialised ((net_create_server ρ sock hostname port st).2.mem q)
    ∧ connected_implies_initialised ((net_server_accept ρ sock sock2 st).2.mem q)
    ∧ connected_implies_initialised ((net_create_client ρ sock hostname port st).2.mem q)
    ∧ connected_implies_initialised ((net_socket_send_data ρ sock data data_size st).2.mem q)
    ∧ connected_implies_initialised
        ((net_socket_read_data ρ sock data data_size st).2.2.mem q)
    ∧ connected_implies_initialised ((net_close_socket ρ sock st).2.mem q) := by
  unfold connected_implies_initialised at h ⊢
  refine ⟨?_, ?_, ?_, ?_, ?_, ?_⟩
  · rcases create_server_mem ρ st sock hostname port with e | ⟨s, e⟩
    · rw [e]; exact h
    · rw [e]
      by_cases hq : q = sock <;> simp [Function.update_apply, hq]
      exact h
  · rcases server_accept_mem ρ st sock sock2 with e | ⟨hi, s, e⟩
    · rw [e]; exact h
    · rw [e]
      by_cases hq : q = sock
      · subst hq
        simp
      · by_cases hq2 : q = sock2
        · subst hq2
          simp [Function.update_apply, hq, hi]
        · simpa [Function.update_apply, hq, hq2] using h
  · rcases create_client_mem ρ st sock hostname port with e | ⟨s, e⟩
    · rw [e]; exact h
    · rw [e]
      by_cases hq : q = sock <;> simp [Function.update_apply, hq]
      exact h
  · rw [send_data_mem]; exact h
  · rw [read_data_mem]; exact h
  · rcases close_socket_mem ρ st sock with ⟨_, e⟩ | ⟨_, e⟩
    · rw [e]; exact h
    · rw [e]
      by_cases hq : q = sock <;> simp [Function.update_apply, hq]
      exact h

/-! ## Creating a server -/

/-- C2: on a socket of the data model, that is one satisfying `connected ⇒ initialised`,
with `initialised == false`, whenever `net_create_server` returns 0 the socket afterwards
has `initialised == true` and `connected == false`, and its handle is the socket the runtime
created in this call, which the runtime then bound to the resolved address and put into
listening state with backlog 1: the call made exactly seven runtime calls, all reporting
success. -/
theorem create_server_success (ρ : Runtime) (st : State) (server : Nat) (hostname : String)
    (port : Int) (hi : (st.mem server).initialised = false)
    (hinv : connected_implies_initialised (st.mem server))
    (h0 : (net_create_server ρ server hostname port st).1 = 0) :
    ((net_create_server ρ server hostname port st).2.mem server).initialised = true
    ∧ ((net_create_server ρ server hostname port st).2.mem server).connected = false
    ∧ ∃ e1 e2 e3 e4 e5 e6 e7 : Event,
        (net_create_server ρ server hostname port st).2.trace
            = st.trace ++ [e1, e2, e3, e4, e5, e6, e7]
        ∧ (∀ e ∈ [e1, e2, e3, e4, e5, e6, e7], e.resp.status = APR_SUCCESS)
        ∧ e2.call = .socket_create e1.resp.sa.family SOCK_STREAM APR_PROTO_TCP st.mem_pool
        ∧ e6.call = .socket_bind e2.resp.sock e1.resp.sa
        ∧ e7.call = .socket_listen e2.resp.sock 1
        ∧ ((net_create_server ρ server hostname port st).2.mem server).socket
            = e2.resp.sock := by
  have hc : (st.mem server).connected = false := by
    cases hconn : (st.mem server).connected
    · rfl
    · have := hinv hconn
      rw [hi] at this
      exact absurd this (by decide)
  obtain ⟨ht, hcase⟩ := create_server_outcome ρ st server hostname port hi
  rcases hcase with ⟨_, hall, hm⟩ | ⟨h1, _, _⟩
  · rw [fail_fast_of_all_ok _ hall] at ht
    refine ⟨by simp [hm], by simp [hm, hc], ?_⟩
    exact ⟨_, _, _, _, _, _, _, ht, hall, rfl, rfl, rfl, by simp [hm]⟩
  · rw [h1] at h0
    exact absurd h0 (by decide)

/-- C9: `net_create_server` is fail-fast and atomic. Its runtime steps are, in this order,
resolve the address (the port handed over as an `apr_port_t`), create the socket, set blocking mode, set the infinite timeout, set
address reuse, bind, listen with backlog 1. On a socket that is not initialised: whichever
step is the first to report a non-success status, the call returns 1, the runtime calls made
are exactly the steps up to and including that one (none of the later steps), and every
`net_socket` object is as before. The call returns 0 exactly when the socket was not
initialised and every step reported success, and then all seven steps were made. -/
theorem create_server_fail_fast (ρ : Runtime) (st : State) (server : Nat) (hostname : String)
    (port : Int) :
    (∃ sa sock, (create_server_steps ρ st.trace hostname port st.mem_pool).map Event.call
        = [.sockaddr_info_get hostname APR_INET (to_apr_port_t port) 0 st.mem_pool,
           .socket_create sa.family SOCK_STREAM APR_PROTO_TCP st.mem_pool,
           .socket_opt_set sock APR_SO_NONBLOCK 0,
           .socket_timeout_set sock (-1),
           .socket_opt_set sock APR_SO_REUSEADDR 1,
           .socket_bind sock sa,
           .socket_listen sock 1])
    ∧ (∀ (pre : List Event) (e : Event) (post : List Event),
        (st.mem server).initialised = false →
        create_server_steps ρ st.trace hostname port st.mem_pool = pre ++ e :: post →
        (∀ x ∈ pre, x.resp.status = APR_SUCCESS) → e.resp.status ≠ APR_SUCCESS →
          (net_create_server ρ server hostname port st).1 = 1
          ∧ (net_create_server ρ server hostname port st).2.trace = st.trace ++ (pre ++ [e])
          ∧ (net_create_server ρ server hostname port st).2.mem = st.mem)
    ∧ ((net_create_server ρ server hostname port st).1 = 0 ↔
        (st.mem server).initialised = false
        ∧ ∀ e ∈ create_server_steps ρ st.trace hostname port st.mem_pool,
            e.resp.status = APR_SUCCESS)
    ∧ ((net_create_server ρ server hostname port st).1 = 0 →
        (net_create_server ρ server hostname port st).2.trace
          = st.trace ++ create_server_steps ρ st.trace hostname port st.mem_pool)
    ∧ ((net_create_server ρ server hostname port st).1 = 0
        ∨ (net_create_server ρ server hostname port st).1 = 1) := by
  have hguard : (st.mem server).initialised = true →
      (net_create_server ρ server hostname port st).1 = 1 := by
    intro hi
    simp [net_create_server, hi]
  refine ⟨⟨_, _, rfl⟩, ?_, ?_, ?_, ?_⟩
  · intro pre e post hi hsteps hpre he
    obtain ⟨ht, hcase⟩ := create_server_outcome ρ st server hostname port hi
    rw [hsteps, fail_fast_of_first_failure pre post e hpre he] at ht
    rcases hcase with ⟨_, hall, _⟩ | ⟨h1, _, hm⟩
    · exact absurd (hall e (by simp [hsteps])) he
    · exact ⟨h1, ht, hm⟩
  · constructor
    · intro h0
      by_cases hi : (st.mem server).initialised = true
      · rw [hguard hi] at h0
        exact absurd h0 (by decide)
      · have hi' : (st.mem server).initialised = false := by simpa using hi
        rcases (create_server_outcome ρ st server hostname port hi').2 with
          ⟨_, hall, _⟩ | ⟨h1, _, _⟩
        · exact ⟨hi', hall⟩
        · rw [h1] at h0
          exact absurd h0 (by decide)
    · rintro ⟨hi, hall⟩
      rcases (create_server_outcome ρ st server hostname port hi).2 with
        ⟨h0, _, _⟩ | ⟨_, hnot, _⟩
      · exact h0
      · exact absurd hall hnot
  · intro h0
    by_cases hi : (st.mem server).initialised = true
    · rw [hguard hi] at h0
      exact absurd h0 (by decide)
    · have hi' : (st.mem server).initialised = false := by simpa using hi
      obtain ⟨ht, hcase⟩ := create_server_outcome ρ st server hostname port hi'
      rcases hcase with ⟨_, hall, _⟩ | ⟨h1, _, _⟩
      · rw [fail_fast_of_all_ok _ hall] at ht
        exact ht
      · rw [h1] at h0
        exact absurd h0 (by decide)
  · by_cases hi : (st.mem server).initialised = true
    · exact Or.inr (hguard hi)
    · rcases (create_server_outcome ρ st server hostname port (by simpa using hi)).2 with
        ⟨h0, _, _⟩ | ⟨h1, _, _⟩
      · exact Or.inl h0
      · exact Or.inr h1

/-! ## One connection per server -/

/-- C7: after a `net_server_accept` on a server socket has returned 0, every later
`net_server_accept` on that server returns 1 without calling the runtime, for every runtime
and after any sequence of calls of the entry points on any sockets (closing the accepted
client included), as long as no `net_close_socket` on the server socket itself has returned
success in between. -/
theorem accept_blocked_until_server_closed (ρ : Runtime) (st : State) (client server : Nat)
    (ops : List ApiCall) (client2 : Nat)
    (h0 : (net_server_accept ρ client server st).1 = 0)
    (hno : no_successful_close ρ server ops (net_server_accept ρ client server st).2) :
    (net_server_accept ρ client2 server
        (run ρ ops (net_server_accept ρ client server st).2)).1 = 1
    ∧ (net_server_accept ρ client2 server
        (run ρ ops (net_server_accept ρ client server st).2)).2.trace
      = (run ρ ops (net_server_accept ρ client server st).2).trace := by
  have hc := accept_success_marks_server ρ st client server h0
  exact accept_rejects_connected ρ _ client2 server
    (run_keeps_connected ρ ops server _ hc hno)

/-! ## Concrete runs -/

/-- The invariant theorem applied to a zero-initialised socket under the all-success
runtime. -/
theorem invariant_preserved_witness :
    connected_implies_initialised (freshState.mem 0)
    ∧ (connected_implies_initialised
        ((net_create_server okRuntime 0 "localhost" 8080 freshState).2.mem 0)
      ∧ connected_implies_initialised ((net_server_accept okRuntime 0 1 freshState).2.mem 0)
      ∧ connected_implies_initialised
        ((net_create_client okRuntime 0 "localhost" 8080 freshState).2.mem 0)
      ∧ connected_implies_initialised
        ((net_socket_send_data okRuntime 0 [104, 105] 2 freshState).2.mem 0)
      ∧ connected_implies_initialised
        ((net_socket_read_data okRuntime 0 [104, 105] 2 freshState).2.2.mem 0)
      ∧ connected_implies_initialised ((net_close_socket okRuntime 0 freshState).2.mem 0)) :=
  ⟨by decide,
    invariant_preserved okRuntime freshState 0 0 1 "localhost" 8080 [104, 105] 2 (by decide)⟩

/-- The theorem of C2 applied to a zero-initialised socket under the all-success runtime,
with a port that does not fit the 16-bit `apr_port_t`. -/
theorem create_server_success_witness :
    (freshState.mem 0).initialised = false
    ∧ connected_implies_initialised (freshState.mem 0)
    ∧ (net_create_server okRuntime 0 "localhost" 70000 freshState).1 = 0
    ∧ (((net_create_server okRuntime 0 "localhost" 70000 freshState).2.mem 0).initialised
          = true
      ∧ ((net_create_server okRuntime 0 "localhost" 70000 freshState).2.mem 0).connected
          = false
      ∧ ∃ e1 e2 e3 e4 e5 e6 e7 : Event,
          (net_create_server okRuntime 0 "localhost" 70000 freshState).2.trace
              = freshState.trace ++ [e1, e2, e3, e4, e5, e6, e7]
          ∧ (∀ e ∈ [e1, e2, e3, e4, e5, e6, e7], e.resp.status = APR_SUCCESS)
          ∧ e2.call
              = .socket_create e1.resp.sa.family SOCK_STREAM APR_PROTO_TCP freshState.mem_pool
          ∧ e6.call = .socket_bind e2.resp.sock e1.resp.sa
          ∧ e7.call = .socket_listen e2.resp.sock 1
          ∧ ((net_create_server okRuntime 0 "localhost" 70000 freshState).2.mem 0).socket
              = e2.resp.sock) :=
  ⟨by decide, by decide, by decide,
    create_server_success okRuntime freshState 0 "localhost" 70000 (by decide) (by decide)
      (by decide)⟩

/-- The guard theorem of C3 applied to an initialised socket. -/
theorem create_on_initialised_rejected_witness :
    (listeningState.mem 0).initialised = true
    ∧ (((net_create_server okRuntime 0 "localhost" 8080 listeningState).1 = 1
        ∧ (net_create_server okRuntime 0 "localhost" 8080 listeningState).2.trace
            = listeningState.trace
        ∧ (net_create_server okRuntime 0 "localhost" 8080 listeningState).2.mem
            = listeningState.mem)
      ∧ ((net_create_client okRuntime 0 "localhost" 8080 listeningState).1 = 1
        ∧ (net_create_client okRuntime 0 "localhost" 8080 listeningState).2.trace
            = listeningState.trace
        ∧ (net_create_client okRuntime 0 "localhost" 8080 listeningState).2.mem
            = listeningState.mem)) :=
  ⟨by decide,
    create_on_initialised_rejected okRuntime listeningState 0 "localhost" 8080 (by decide)⟩

/-- The guard theorem of C4 applied to a zero-initialised, never created socket. -/
theorem io_on_unconnected_rejected_witness :
    (freshState.mem 0).connected = false
    ∧ (((net_socket_send_data okRuntime 0 [104, 105] 2 freshState).1 = 1
        ∧ (net_socket_send_data okRuntime 0 [104, 105] 2 freshState).2.trace
            = freshState.trace
        ∧ (net_socket_send_data okRuntime 0 [104, 105] 2 freshState).2.mem = freshState.mem)
      ∧ ((net_socket_read_data okRuntime 0 [104, 105] 2 freshState).1 = 1
        ∧ (net_socket_read_data okRuntime 0 [104, 105] 2 freshState).2.1 = [104, 105]
        ∧ (net_socket_read_data okRuntime 0 [104, 105] 2 freshState).2.2.trace
            = freshState.trace
        ∧ (net_socket_read_data okRuntime 0 [104, 105] 2 freshState).2.2.mem
            = freshState.mem)) :=
  ⟨by decide, io_on_unconnected_rejected okRuntime freshState 0 [104, 105] 2 (by decide)⟩

/-- The exact-length theorem of C5 applied to a connected socket. -/
theorem exact_length_io_witness :
    (connectedState.mem 0).connected = true
    ∧ (((net_socket_send_data okRuntime 0 [104, 105] 2 connectedState).2.trace
          = connectedState.trace ++ [⟨.socket_send (connectedState.mem 0).socket [104, 105] 2,
              okRuntime.respond connectedState.trace
                (.socket_send (connectedState.mem 0).socket [104, 105] 2)⟩]
        ∧ ((net_socket_send_data okRuntime 0 [104, 105] 2 connectedState).1 = 0 ↔
            (okRuntime.respond connectedState.trace
                (.socket_send (connectedState.mem 0).socket [104, 105] 2)).status
                = APR_SUCCESS
              ∧ (okRuntime.respond connectedState.trace
                (.socket_send (connectedState.mem 0).socket [104, 105] 2)).len = 2)
        ∧ ((net_socket_send_data okRuntime 0 [104, 105] 2 connectedState).1 = 0
            ∨ (net_socket_send_data okRuntime 0 [104, 105] 2 connectedState).1 = 1)
        ∧ ((okRuntime.respond connectedState.trace
              (.socket_send (connectedState.mem 0).socket [104, 105] 2)).len < 2 →
            (net_socket_send_data okRuntime 0 [104, 105] 2 connectedState).1 = 1))
      ∧ ((net_socket_read_data okRuntime 0 [104, 105] 2 connectedState).2.2.trace
          = connectedState.trace ++ [⟨.socket_recv (connectedState.mem 0).socket [104, 105] 2,
              okRuntime.respond connectedState.trace
                (.socket_recv (connectedState.mem 0).socket [104, 105] 2)⟩]
        ∧ ((net_socket_read_data okRuntime 0 [104, 105] 2 connectedState).1 = 0 ↔
            (okRuntime.respond connectedState.trace
                (.socket_recv (connectedState.mem 0).socket [104, 105] 2)).status
                = APR_SUCCESS
              ∧ (okRuntime.respond connectedState.trace
                (.socket_recv (connectedState.mem 0).socket [104, 105] 2)).len = 2)
        ∧ ((net_socket_read_data okRuntime 0 [104, 105] 2 connectedState).1 = 0
            ∨ (net_socket_read_data okRuntime 0 [104, 105] 2 connectedState).1 = 1)
        ∧ ((okRuntime.respond connectedState.trace
              (.socket_recv (connectedState.mem 0).socket [104, 105] 2)).len < 2 →
            (net_socket_read_data okRuntime 0 [104, 105] 2 connectedState).1 = 1))) :=
  ⟨by decide, exact_length_io okRuntime connectedState 0 [104, 105] 2 (by decide)⟩

/-- The theorem of C7 applied to a run in which the accepted client is closed, a second
accept and a server creation are tried on the server, and data is sent on the closed
client. -/
theorem accept_blocked_until_server_closed_witness :
    (net_server_accept okRuntime 1 0 serverState).1 = 0
    ∧ no_successful_close okRuntime 0
        [.close_socket 1, .server_accept 2 0, .create_server 0 "localhost" 8080,
          .socket_send_data 1 [104, 105] 2]
        (net_server_accept okRuntime 1 0 serverState).2
    ∧ ((net_server_accept okRuntime 2 0
          (run okRuntime
            [.close_socket 1, .server_accept 2 0, .create_server 0 "localhost" 8080,
              .socket_send_data 1 [104, 105] 2]
            (net_server_accept okRuntime 1 0 serverState).2)).1 = 1
      ∧ (net_server_accept okRuntime 2 0
          (run okRuntime
            [.close_socket 1, .server_accept 2 0, .create_server 0 "localhost" 8080,
              .socket_send_data 1 [104, 105] 2]
            (net_server_accept okRuntime 1 0 serverState).2)).2.trace
        = (run okRuntime
            [.close_socket 1, .server_accept 2 0, .create_server 0 "localhost" 8080,
              .socket_send_data 1 [104, 105] 2]
            (net_server_accept okRuntime 1 0 serverState).2).trace) :=
  ⟨by decide, by simp only [no_successful_close]; decide,
    accept_blocked_until_server_closed okRuntime serverState 1 0
      [.close_socket 1, .server_accept 2 0, .create_server 0 "localhost" 8080,
        .socket_send_data 1 [104, 105] 2] 2 (by decide)
      (by simp only [no_successful_close]; decide)⟩

/-- The theorem of C10 applied to a client object that is initialised, connected and holds
the open handle 9. -/
theorem accept_overwrites_client_witness :
    (busyClientState.mem 0).initialised = true
    ∧ (busyClientState.mem 0).connected = false
    ∧ (okRuntime.respond busyClientState.trace
        (.socket_accept (busyClientState.mem 0).socket busyClientState.mem_pool)).status
        = APR_SUCCESS
    ∧ ((net_server_accept okRuntime 1 0 busyClientState).1 = 0
      ∧ ((net_server_accept okRuntime 1 0 busyClientState).2.mem 1).socket
          = (okRuntime.respond busyClientState.trace
              (.socket_accept (busyClientState.mem 0).socket busyClientState.mem_pool)).sock
      ∧ (net_server_accept okRuntime 1 0 busyClientState).2.trace
          = busyClientState.trace ++ [ask okRuntime busyClientState.trace
              (.socket_accept (busyClientState.mem 0).socket busyClientState.mem_pool)]
      ∧ ((1 : Nat) ≠ 0 →
          net_server_accept okRuntime 1 0
              { busyClientState with
                mem := Function.update busyClientState.mem 1 ⟨false, false, 0⟩ }
            = net_server_accept okRuntime 1 0 busyClientState)) :=
  ⟨by decide, by decide, by decide,
    accept_overwrites_client okRuntime busyClientState 1 0 ⟨false, false, 0⟩
      (by decide) (by decide) (by decide)⟩

/-- The theorem of C6 applied to a listening server under the all-success runtime: the
accept succeeds, marks the server connected and fills the client object. -/
theorem server_accept_spec_witness :
    (net_server_accept okRuntime 1 0 serverState).2.trace
        = serverState.trace ++ [ask okRuntime serverState.trace
            (.socket_accept (serverState.mem 0).socket serverState.mem_pool)]
    ∧ ((net_server_accept okRuntime 1 0 serverState).2.mem 0).connected = true
    ∧ (net_server_accept okRuntime 1 0 serverState).2.mem 1
        = ⟨true, true, (okRuntime.respond serverState.trace
            (.socket_accept (serverState.mem 0).socket serverState.mem_pool)).sock⟩
    ∧ ((1 : Nat) ≠ 0 → (net_server_accept okRuntime 1 0 serverState).2.mem 0
        = { serverState.mem 0 with connected := true }) :=
  (server_accept_spec okRuntime serverState 1 0).2.1 (by decide)

/-- The theorem of C8 applied twice to a connected socket: once under the all-success
runtime, once under a runtime whose close call reports status 1. -/
theorem close_socket_spec_witness :
    (((net_close_socket okRuntime 0 connectedState).2.mem 0).connected = false
      ∧ ((net_close_socket okRuntime 0 connectedState).2.mem 0).initialised = false
      ∧ ∀ (hostname : String) (port : Int),
          (net_close_socket okRuntime 0 connectedState).2.trace.length
            < (net_create_server okRuntime 0 hostname port
                (net_close_socket okRuntime 0 connectedState).2).2.trace.length
          ∧ (net_close_socket okRuntime 0 connectedState).2.trace.length
            < (net_create_client okRuntime 0 hostname port
                (net_close_socket okRuntime 0 connectedState).2).2.trace.length)
    ∧ ((net_close_socket (scriptRuntime [1]) 0 connectedState).1 = 1
      ∧ (net_close_socket (scriptRuntime [1]) 0 connectedState).2.mem = connectedState.mem) :=
  ⟨(close_socket_spec okRuntime connectedState 0).2.2.1 (by decide),
    (close_socket_spec (scriptRuntime [1]) connectedState 0).2.2.2 (by decide)⟩

/-- The theorem of C9 applied to a run in which the first five steps succeed and the bind
reports status 1: the call returns 1, the listen is not made, and the objects are as
before. -/
theorem create_server_fail_fast_witness :
    (net_create_server (scriptRuntime [0, 0, 0, 0, 0, 1]) 0 "localhost" 8080 freshState).1 = 1
    ∧ (net_create_server (scriptRuntime [0, 0, 0, 0, 0, 1]) 0 "localhost" 8080
          freshState).2.trace
        = freshState.trace
          ++ ((create_server_steps (scriptRuntime [0, 0, 0, 0, 0, 1]) freshState.trace
                "localhost" 8080 freshState.mem_pool).take 5
              ++ [⟨.socket_bind 2 ⟨APR_INET, 0⟩, ⟨1, 6, ⟨APR_INET, 0⟩, 1, 0, []⟩⟩])
    ∧ (net_create_server (scriptRuntime [0, 0, 0, 0, 0, 1]) 0 "localhost" 8080
          freshState).2.mem = freshState.mem :=
  (create_server_fail_fast (scriptRuntime [0, 0, 0, 0, 0, 1]) freshState 0 "localhost"
      8080).2.1
    ((create_server_steps (scriptRuntime [0, 0, 0, 0, 0, 1]) freshState.trace
      "localhost" 8080 freshState.mem_pool).take 5)
    ⟨.socket_bind 2 ⟨APR_INET, 0⟩, ⟨1, 6, ⟨APR_INET, 0⟩, 1, 0, []⟩⟩
    ((create_server_steps (scriptRuntime [0, 0, 0, 0, 0, 1]) freshState.trace
      "localhost" 8080 freshState.mem_pool).drop 6)
    (by decide) (by decide) (by decide) (by decide)

/-- The port handed to the runtime is the `int` narrowed to 16 bits: 70000 reaches
`apr_sockaddr_info_get` as 4464 in `net_create_server`, and -1 as 65535 in
`net_create_client`. -/
theorem port_narrowed_at_runtime_call :
    ((net_create_server okRuntime 0 "localhost" 70000 freshState).2.trace.map Event.call).head?
        = some (.sockaddr_info_get "localhost" APR_INET 4464 0 0)
    ∧ ((net_create_client okRuntime 0 "localhost" (-1) freshState).2.trace.map
          Event.call).head?
        = some (.sockaddr_info_get "localhost" APR_INET 65535 0 0) := by
  decide

end Network
